import Mathlib

set_option maxRecDepth 40000

/-!
Verification of the daycare-autofill content-extraction and scoring pipeline.

The definitions below are a shallow embedding of the Python source files
src/scoring.py, src/app.py and src/daycare_scraper_gemini.py. External
effects (HTTP fetches, the headless browser, the generative model, the
filesystem cache) are modelled by explicit oracles and by an explicit
state record that counts fetches and model calls and holds the two cache
namespaces as association lists. Pure helpers (string matching, the
needs-javascript heuristic, the link filter, the scorer) are translated
directly from the source. All definitions come first; the theorems about
them follow.
-/

namespace DaycareAutofill

/-! ## String helpers

Python substring tests (`needle in hay`) and `str.lower()` are modelled
over character lists so that they stay executable and easy to reason
about. -/

/-- `charsLead n h` holds when the character list `n` occurs at the very
front of `h`. Models Python string matching at a fixed offset. -/
def charsLead : List Char → List Char → Bool
  | [], _ => true
  | _ :: _, [] => false
  | a :: as, b :: bs => a == b && charsLead as bs

/-- `charsHave h n` holds when the character list `n` occurs contiguously
anywhere inside `h`. -/
def charsHave : List Char → List Char → Bool
  | [], needle => charsLead needle []
  | c :: t, needle => charsLead needle (c :: t) || charsHave t needle

/-- Python `needle in hay` on strings. -/
def strContains (hay needle : String) : Bool :=
  charsHave hay.toList needle.toList

/-- Python `str.lower()`, applied character by character. -/
def strLower (s : String) : String :=
  String.mk (s.toList.map Char.toLower)

/-- Python `str.strip()`: drop whitespace from both ends. -/
def strStrip (s : String) : String :=
  String.mk (((s.toList.dropWhile Char.isWhitespace).reverse.dropWhile
      Char.isWhitespace).reverse)

/-! ## Scorer (src/scoring.py)

A data-frame row is modelled as an association list from column names to
string values; `rowGet` models `row.get(key)` (returning none when the
column is absent). Weights are a record holding the six criterion values,
mirroring the claim scope of a weight mapping that contains all six
criterion keys. -/

/-- A tabular row: column name to string value, first binding wins. -/
abbrev Row := List (String × String)

/-- Python `row.get(key)`: the value at the first matching column. -/
def rowGet (row : Row) (k : String) : Option String :=
  match row with
  | [] => none
  | (k', v) :: t => if k' == k then some v else rowGet t k

/-- The six criterion weights, as the weight mapping keys
Mandarin / Meals / Curriculum / Staff Stability / Cultural Diversity /
MSFT Discount of scoring.py. -/
structure Weights where
  mandarin : Int
  meals : Int
  curriculum : Int
  staffStability : Int
  culturalDiversity : Int
  msftDiscount : Int

/-- Python truthiness of `row.get(key)` for a string column: present and
non-empty. -/
def truthyOpt : Option String → Bool
  | none => false
  | some s => s != ""

/-- `compute_score` from src/scoring.py, line by line. Note the row keys
it reads: "Meals Provided", "Staff Stability", "Cultural Diversity" and
"MSFT Discount" are written with spaces, exactly as in the source. -/
def compute_score (row : Row) (weights : Weights) : Int :=
  let score : Int := 0
  let score := if rowGet row "Mandarin" = some "Yes" then score + weights.mandarin else score
  let score := if rowGet row "Meals Provided" = some "Yes" then score + weights.meals else score
  let score := if truthyOpt (rowGet row "Curriculum") then score + weights.curriculum else score
  let score := if rowGet row "Staff Stability" = some "Yes" then score + weights.staffStability else score
  let score := if rowGet row "Cultural Diversity" = some "High" then score + weights.culturalDiversity else score
  let score := if rowGet row "MSFT Discount" = some "Yes" then score + weights.msftDiscount else score
  score

/-- Modelled from the spec: the score the claim describes, keyed by the
fields the pipeline actually writes (the scraped columns AgesServed,
Mandarin, MealsProvided, Curriculum, CulturalDiversity, StaffStability of
src/app.py line 195 and the MSFT_Discount column of line 72). -/
def compute_score_claim (row : Row) (weights : Weights) : Int :=
  (if rowGet row "Mandarin" = some "Yes" then weights.mandarin else 0)
  + (if rowGet row "MealsProvided" = some "Yes" then weights.meals else 0)
  + (if truthyOpt (rowGet row "Curriculum") then weights.curriculum else 0)
  + (if rowGet row "StaffStability" = some "Yes" then weights.staffStability else 0)
  + (if rowGet row "CulturalDiversity" = some "High" then weights.culturalDiversity else 0)
  + (if rowGet row "MSFT_Discount" = some "Yes" then weights.msftDiscount else 0)

/-- A row exactly as the scraping stage produces it: the six scraped
columns plus the discount column, all favourable. -/
def c1Row : Row :=
  [("Mandarin", "Yes"), ("MealsProvided", "Yes"), ("Curriculum", "play-based"),
   ("StaffStability", "Yes"), ("CulturalDiversity", "High"), ("MSFT_Discount", "Yes")]

/-- Unit weights for the six criteria. -/
def unitWeights : Weights :=
  { mandarin := 1, meals := 1, curriculum := 1, staffStability := 1,
    culturalDiversity := 1, msftDiscount := 1 }

/-! ## JSON values and dictionaries

The records flowing through the pipeline are Python dictionaries decoded
from or destined for JSON. They are modelled as association lists over a
small JSON value type, preserving insertion order the way Python
dictionaries do. -/

/-- A JSON value, rich enough for the records and metadata the scraper
stores. -/
inductive JVal where
  | str : String → JVal
  | num : Int → JVal
  | boolv : Bool → JVal
  | nullv : JVal
  | arr : List JVal → JVal
  | obj : List (String × JVal) → JVal

/-- A decoded JSON object / Python dictionary, in insertion order. -/
abbrev Obj := List (String × JVal)

/-- Membership of a key in a dictionary. -/
def hasKeyB (d : Obj) (k : String) : Bool :=
  d.any (fun kv => kv.1 == k)

/-- First value bound to a key, as Python dictionary lookup. -/
def lookupEntry {α : Type} (d : List (String × α)) (k : String) : Option α :=
  match d with
  | [] => none
  | (k', v) :: t => if k' == k then some v else lookupEntry t k

/-- Python dictionary update of a single key: overwrite in place if the
key exists, append otherwise. Also models writing a file into a cache
directory (overwrite or create). -/
def dictInsert {α : Type} (d : List (String × α)) (k : String) (v : α) :
    List (String × α) :=
  if d.any (fun kv => kv.1 == k) then
    d.map (fun kv => if kv.1 == k then (k, v) else kv)
  else d ++ [(k, v)]

/-- Python double-splat merge of two dictionaries: keys of the first in
order with values overridden by the second, then the new keys of the
second in order. -/
def dictMerge (a b : Obj) : Obj :=
  b.foldl (fun d kv => dictInsert d kv.1 kv.2) a

/-! ## Extractor retry layer (call_gemini_summary and variants)

Each attempt of the bounded retry loop in call_gemini_summary,
call_gemini_summary_multipage and call_gemini_summary_multiurl either
fails (model invocation raised, or the braces-delimited slice of the
response did not decode as JSON) or succeeds with the decoded object,
which the source returns verbatim. An attempt outcome models exactly
that; the loop walks the list of outcomes of the successive attempts
(one list element per attempt, so a list of length `retries`). -/

/-- Outcome of one attempt of the Gemini retry loop. -/
inductive AttemptOutcome where
  | err : AttemptOutcome
  | ok : Obj → AttemptOutcome

/-- The fixed fallback record returned after exhausting retries, from
src/daycare_scraper_gemini.py lines 325-332 (and the identical blocks of
the multipage and multiurl variants). -/
def default_record : Obj :=
  [("AgesServed", JVal.str ""),
   ("Mandarin", JVal.str "No"),
   ("MealsProvided", JVal.str "No"),
   ("Curriculum", JVal.str ""),
   ("CulturalDiversity", JVal.str "Unknown"),
   ("StaffStability", JVal.str "No")]

/-- The `while attempt < retries` loop shared verbatim by the three
summary calls: return the first successfully decoded object, or the
fixed default record once every attempt has failed. -/
def gemini_attempt_loop : List AttemptOutcome → Obj
  | [] => default_record
  | AttemptOutcome.err :: rest => gemini_attempt_loop rest
  | AttemptOutcome.ok o :: _ => o

/-- call_gemini_summary (single page, 16000-char budget): its returned
record is the retry loop over the attempt outcomes. -/
def call_gemini_summary (outcomes : List AttemptOutcome) : Obj :=
  gemini_attempt_loop outcomes

/-- call_gemini_summary_multipage (same-site pages, 24000-char budget):
identical retry/parse/return structure. -/
def call_gemini_summary_multipage (outcomes : List AttemptOutcome) : Obj :=
  gemini_attempt_loop outcomes

/-- call_gemini_summary_multiurl (independent sources, 28000-char
budget): identical retry/parse/return structure. -/
def call_gemini_summary_multiurl (outcomes : List AttemptOutcome) : Obj :=
  gemini_attempt_loop outcomes

/-- The six mandatory extraction keys. -/
def required_keys : List String :=
  ["AgesServed", "Mandarin", "MealsProvided", "Curriculum",
   "CulturalDiversity", "StaffStability"]

/-- All six extraction keys present in a record. -/
def sixKeysB (d : Obj) : Bool :=
  required_keys.all (fun k => hasKeyB d k)

/-! ## Fetcher (get_text_from_url, needs_javascript, smart fetch)

The two underlying fetchers perform network and browser effects; they are
modelled as oracles giving, for each URL, the text each of them would
return (the source absorbs every failure into an empty string, so an
oracle value of the empty string covers the failure case). The
needs-javascript heuristic and the smart dispatch are translated
directly. -/

/-- Oracle for the two effectful fetchers: the text returned by
get_text_from_url (static) and get_text_from_url_selenium (rendered),
empty string on failure. -/
structure FetchEnv where
  static : String → String
  selenium : String → String

/-- The fixed markers of client-side rendering, from
src/daycare_scraper_gemini.py lines 34-43. -/
def js_indicators : List String :=
  ["enable javascript",
   "javascript is required",
   "please enable javascript",
   "javascript is disabled",
   "noscript",
   "loading...",
   "please wait",
   "redirecting"]

/-- needs_javascript from the source: empty text or stripped length under
500, or any indicator contained in the lowered text. -/
def needs_javascript (text : String) : Bool :=
  if text = "" ∨ (strStrip text).length < 500 then true
  else js_indicators.any (fun ind => strContains (strLower text) ind)

/-- get_text_from_url_smart: the static fetch first; keep it when
non-empty and the heuristic is quiet, otherwise fall back to the rendered
fetch, and report the method used. -/
def get_text_from_url_smart (env : FetchEnv) (url : String) : String × String :=
  let static_text := env.static url
  if static_text ≠ "" ∧ needs_javascript static_text = false then (static_text, "static")
  else
    let js_text := env.selenium url
    if js_text ≠ "" then (js_text, "selenium") else (static_text, "failed")

/-- Modelled from the spec wording of fetch_smart: tries the static fetch
first; if the result is non-empty and needs_rendering is false, returns
the pair of the text and "static"; otherwise calls the rendered fetch and
returns it with "selenium" when non-empty, else the static text or the
empty string with "failed". -/
def fetch_smart_spec (env : FetchEnv) (url : String) : String × String :=
  let text := env.static url
  if text ≠ "" ∧ ¬ needs_javascript text = true then (text, "static")
  else if env.selenium url ≠ "" then (env.selenium url, "selenium")
  else (text, "failed")

/-! ## Link filter (filter_non_content_pages) -/

/-- The denylist of path substrings, from src/daycare_scraper_gemini.py
lines 164-189. -/
def exclude_patterns : List String :=
  ["contact", "location", "directions", "map", "address", "phone",
   "login", "register", "signup", "account", "portal", "admin", "dashboard",
   "payment", "billing", "invoice", "checkout", "cart", "shop", "store",
   "privacy", "terms", "legal", "policy", "disclaimer", "copyright", "gdpr",
   "sitemap", "search", "rss", "feed", "api", "404", "error", "maintenance",
   "jobs", "careers", "employment", "hiring", "apply", "work-with-us",
   "news", "blog", "events", "calendar", "newsletter", "articles", "posts",
   "facebook", "instagram", "twitter", "linkedin", "youtube", "social",
   ".pdf", ".doc", ".docx", ".jpg", ".jpeg", ".png", ".gif", ".zip", ".mp4"]

/-- The allowlist of high-value path substrings, from lines 192-201. -/
def priority_patterns : List String :=
  ["program", "curriculum", "philosophy", "approach", "method",
   "about", "overview", "services", "care",
   "ages", "infant", "toddler", "preschool", "pre-k", "kindergarten",
   "schedule", "hours", "day", "routine", "activities", "learning",
   "meals", "nutrition", "food", "lunch", "snack", "menu",
   "staff", "teachers", "caregivers", "team", "educators",
   "enrollment", "admission", "tuition", "rates", "fees", "cost",
   "tour", "visit", "information", "details"]

/-- A URL survives the denylist: no exclude pattern occurs in its lowered
form. The source expresses this as a continue on a positive match. -/
def keepB (u : String) : Bool :=
  !(exclude_patterns.any (fun p => strContains (strLower u) p))

/-- A URL matches the allowlist: some priority pattern occurs in its
lowered form. -/
def priB (u : String) : Bool :=
  priority_patterns.any (fun p => strContains (strLower u) p)

/-- The accumulation loop of filter_non_content_pages: build the priority
and regular lists in encounter order, dropping denylisted URLs. -/
def filter_loop : List String → List String → List String → List String × List String
  | [], priority_urls, regular_urls => (priority_urls, regular_urls)
  | url :: rest, priority_urls, regular_urls =>
    if keepB url then
      if priB url then filter_loop rest (priority_urls ++ [url]) regular_urls
      else filter_loop rest priority_urls (regular_urls ++ [url])
    else filter_loop rest priority_urls regular_urls

/-- filter_non_content_pages: priority URLs first, then regular ones. -/
def filter_non_content_pages (urls : List String) : List String :=
  let r := filter_loop urls [] []
  r.1 ++ r.2

/-! ## The aggregation and caching pipeline

scrape_comprehensive_daycare_info, scrape_multiple_urls and
scrape_daycare_info perform effects: page fetches, model calls, and
writes under the cache_json and cache_text directories. The oracle `Env`
fixes the outcome of every external interaction (the pair returned by the
smart fetch per URL, the link set discovered from a base page, the record
the bounded-retry model call yields per combined text, and the debug
flag), while `PipeState` carries the two cache namespaces as key-value
stores together with counters of pages fetched and model calls made.
Every embedded pipeline function threads the state explicitly. The bytes
written into a cache_text entry include headers with wall-clock
timestamps in the source; only the presence and the combined text of such
writes are tracked here, which is all the claims inspect. -/

/-- Oracle for the effectful collaborators of the pipeline. -/
structure Env where
  fetch : String → String × String
  links : String → List String
  model : String → Obj
  debug : Bool

/-- The observable state of the pipeline: the structured-record cache
(cache_json), the raw-text cache (cache_text), and counters of page
fetches and model calls performed. -/
structure PipeState where
  cacheJson : List (String × Obj)
  cacheText : List (String × String)
  fetchCount : Nat
  modelCount : Nat

/-- The sanitized cache key of get_cache_path: lower-case the name and
replace every non-alphanumeric character with an underscore. -/
def sanitize (name : String) : String :=
  String.mk ((strLower name).toList.map (fun c => if c.isAlphanum then c else '_'))

/-- One fetched page as collected by the comprehensive scraper (the
dictionaries appended to all_content, with keys url / text / method /
length / type). -/
structure PageContent where
  url : String
  text : String
  method : String
  textLength : Nat
  pageType : String

/-- The subpage loop of scrape_comprehensive_daycare_info: fetch every
candidate link, keep only pages whose stripped text exceeds 200
characters, and count every fetch. -/
def comp_loop (env : Env) :
    List String → List PageContent → List String → PipeState →
      List PageContent × List String × PipeState
  | [], content, scraped, st => (content, scraped, st)
  | url :: rest, content, scraped, st =>
    if (env.fetch url).1 ≠ "" ∧ 200 < (strStrip (env.fetch url).1).length then
      comp_loop env rest
        (content ++ [{ url := url, text := (env.fetch url).1,
                       method := (env.fetch url).2,
                       textLength := (env.fetch url).1.length,
                       pageType := "subpage" }])
        (scraped ++ [url])
        { st with fetchCount := st.fetchCount + 1 }
    else comp_loop env rest content scraped { st with fetchCount := st.fetchCount + 1 }

/-- The provenance-marked concatenation of the subpage texts (the loop
over all_content minus the homepage). -/
def joinPages : List PageContent → String
  | [] => ""
  | p :: rest => "=== CONTENT FROM " ++ p.url ++ " ===\n" ++ p.text ++ "\n\n" ++ joinPages rest

/-- scrape_comprehensive_daycare_info: fetch the homepage, discover and
filter internal links, truncate the candidates to max_pages - 1, fetch
them, and combine the texts under provenance markers. Returns the
combined text, the scraped URL list and the page details, next to the
updated effect state. -/
def scrape_comprehensive_daycare_info (env : Env) (st : PipeState)
    (base_url : String) (max_pages : Nat) :
    (String × List String × List PageContent) × PipeState :=
  let homepage := env.fetch base_url
  let st1 : PipeState := { st with fetchCount := st.fetchCount + 1 }
  let all_content0 : List PageContent :=
    [{ url := base_url, text := homepage.1, method := homepage.2,
       textLength := homepage.1.length, pageType := "homepage" }]
  let content_links := filter_non_content_pages (env.links base_url)
  let content_links2 :=
    if max_pages - 1 < content_links.length then content_links.take (max_pages - 1)
    else content_links
  let r := comp_loop env content_links2 all_content0 [base_url] st1
  let combined_text :=
    "=== HOMEPAGE CONTENT ===\n" ++ homepage.1 ++ "\n\n" ++ joinPages (r.1.drop 1)
  ((combined_text, r.2.1, r.1), r.2.2)

/-- The URL loop of scrape_multiple_urls: fetch each URL, append to the
combined content under a provenance marker only when the stripped text
exceeds 200 characters, record the scraped URLs and their methods, and
count every fetch. -/
def multi_loop (env : Env) :
    List String → String → List String → List String → PipeState →
      String × List String × List String × PipeState
  | [], cc, scraped, methods, st => (cc, scraped, methods, st)
  | url :: rest, cc, scraped, methods, st =>
    if (env.fetch url).1 ≠ "" ∧ 200 < (strStrip (env.fetch url).1).length then
      multi_loop env rest
        (cc ++ "\n=== CONTENT FROM " ++ url ++ " ===\n" ++ (env.fetch url).1 ++ "\n")
        (scraped ++ [url]) (methods ++ [(env.fetch url).2])
        { st with fetchCount := st.fetchCount + 1 }
    else multi_loop env rest cc scraped methods { st with fetchCount := st.fetchCount + 1 }

/-- scrape_multiple_urls: the explicit URL-list path. When no URL yields
meaningful content the function returns the empty record with no model
call and no cache writes; otherwise it writes the raw text cache entry
(plus a debug entry under the debug flag), calls the model on the
combined content, stores the summary merged under the multi-URL metadata
keys, and returns the bare summary. -/
def scrape_multiple_urls (env : Env) (st : PipeState) (url_list : List String)
    (name : String) : Obj × PipeState :=
  let r := multi_loop env url_list "" [] [] st
  let combined_content := r.1
  let scraped_urls := r.2.1
  let scraping_methods := r.2.2.1
  let st1 := r.2.2.2
  if combined_content = "" then ([], st1)
  else
    let key := sanitize name
    let st2 := { st1 with cacheText := dictInsert st1.cacheText key combined_content }
    let st3 := if env.debug
      then { st2 with cacheText := dictInsert st2.cacheText ("debug_" ++ name) combined_content }
      else st2
    let summary := env.model combined_content
    let st4 := { st3 with modelCount := st3.modelCount + 1 }
    let enhanced := dictMerge
      [("scraping_method", JVal.str "multi_url"),
       ("total_urls_provided", JVal.num (url_list.length : Int)),
       ("successful_urls", JVal.num (scraped_urls.length : Int)),
       ("scraped_urls", JVal.arr (scraped_urls.map JVal.str)),
       ("failed_urls", JVal.arr ((url_list.filter (fun u => !(scraped_urls.contains u))).map JVal.str)),
       ("scraping_methods", JVal.arr (scraping_methods.map JVal.str)),
       ("total_text_length", JVal.num (combined_content.length : Int))]
      summary
    let st5 := { st4 with cacheJson := dictInsert st4.cacheJson key enhanced }
    (summary, st5)

/-- The metadata keys removed from a cached record on a cache hit, from
src/daycare_scraper_gemini.py line 588. -/
def strip_keys : List String :=
  ["scraping_method", "pages_scraped", "scraped_urls", "total_text_length"]

/-- The single-URL body of scrape_daycare_info: consult the cache first
and, on a hit, return the stored record with the four metadata keys
removed; on a miss run the comprehensive scraper with max_pages = 8,
write the raw text (plus a debug entry under the debug flag), call the
model, store the summary under the comprehensive metadata keys, and
return the bare summary. -/
def scrape_single_url (env : Env) (st : PipeState) (url : String) (name : String) :
    Obj × PipeState :=
  let key := sanitize name
  match lookupEntry st.cacheJson key with
  | some cached => (cached.filter (fun kv => !(strip_keys.contains kv.1)), st)
  | none =>
    let r := scrape_comprehensive_daycare_info env st url 8
    let combined_text := r.1.1
    let scraped_urls := r.1.2.1
    let st1 := r.2
    if combined_text = "" then ([], st1)
    else
      let st2 := { st1 with cacheText := dictInsert st1.cacheText key combined_text }
      let st3 := if env.debug
        then { st2 with cacheText := dictInsert st2.cacheText ("debug_" ++ name) combined_text }
        else st2
      let summary := env.model combined_text
      let st4 := { st3 with modelCount := st3.modelCount + 1 }
      let enhanced := dictMerge
        [("scraping_method", JVal.str "comprehensive_multipage"),
         ("pages_scraped", JVal.num (scraped_urls.length : Int)),
         ("scraped_urls", JVal.arr (scraped_urls.map JVal.str)),
         ("total_text_length", JVal.num (combined_text.length : Int))]
        summary
      let st5 := { st4 with cacheJson := dictInsert st4.cacheJson key enhanced }
      (summary, st5)

/-- The argument of scrape_daycare_info: a single URL string or a list of
URLs. -/
inductive UrlArg where
  | single : String → UrlArg
  | list : List String → UrlArg

/-- scrape_daycare_info: the dispatch of the source. An empty list gives
the empty record; a one-element list takes the single-URL comprehensive
body on its only element; a longer list takes the explicit multi-URL
path; a plain string takes the single-URL comprehensive body. -/
def scrape_daycare_info (env : Env) (st : PipeState) (arg : UrlArg) (name : String) :
    Obj × PipeState :=
  match arg with
  | UrlArg.single url => scrape_single_url env st url name
  | UrlArg.list [] => ([], st)
  | UrlArg.list [url] => scrape_single_url env st url name
  | UrlArg.list urls => scrape_multiple_urls env st urls name

/-! ## Concrete fixtures for counterexamples and witnesses -/

/-- 201 identical characters: passes the 200-character meaningful-content
threshold. -/
def bigText : String := String.mk (List.replicate 201 'a')

/-- The state with empty caches and zeroed counters. -/
def emptyState : PipeState :=
  { cacheJson := [], cacheText := [], fetchCount := 0, modelCount := 0 }

/-- An environment whose every fetch succeeds with meaningful static
text, with no discoverable links. -/
def richEnv : Env :=
  { fetch := fun _ => (bigText, "static"), links := fun _ => [],
    model := fun _ => default_record, debug := false }

/-- An environment whose fetches all fail but whose link discovery finds
seven same-site candidate pages. -/
def linkyEnv : Env :=
  { fetch := fun _ => ("", "failed"), links := fun _ => ["q1", "q2", "q3", "q4", "q5", "q6", "q7"],
    model := fun _ => default_record, debug := false }

/-- An environment whose fetches return short text, below the
meaningful-content threshold. -/
def shortEnv : Env :=
  { fetch := fun _ => ("short", "static"), links := fun _ => [],
    model := fun _ => default_record, debug := false }

/-- A populated cache entry for the provider name "prov", shaped like a
record stored by the comprehensive path. -/
def c2Entry : Obj :=
  [("scraping_method", JVal.str "comprehensive_multipage"),
   ("pages_scraped", JVal.num 3),
   ("scraped_urls", JVal.arr [JVal.str "u1"]),
   ("total_text_length", JVal.num 1234)] ++ default_record

/-- A state whose structured cache already holds an entry for "prov". -/
def c2State : PipeState :=
  { cacheJson := [("prov", c2Entry)], cacheText := [], fetchCount := 0, modelCount := 0 }

/-- A populated cache entry for the provider name "pw", shaped like a
record stored by the multi-URL path. -/
def c5wEntry : Obj :=
  [("scraping_method", JVal.str "multi_url"),
   ("total_urls_provided", JVal.num 2),
   ("successful_urls", JVal.num 2),
   ("scraped_urls", JVal.arr [JVal.str "u1", JVal.str "u2"]),
   ("failed_urls", JVal.arr []),
   ("scraping_methods", JVal.arr [JVal.str "static", JVal.str "static"]),
   ("total_text_length", JVal.num 454)] ++ default_record

/-- A state whose structured cache already holds the multi-URL entry for
"pw". -/
def c5wState : PipeState :=
  { cacheJson := [("pw", c5wEntry)], cacheText := [], fetchCount := 0, modelCount := 0 }

/-- The state after a real multi-URL run for provider "pv" on two
successful URLs: its structured cache holds the entry that run stored. -/
def c5State1 : PipeState :=
  (scrape_multiple_urls richEnv emptyState ["u1", "u2"] "pv").2

end DaycareAutofill

namespace DaycareAutofill

/-! ## Theorems: string helpers -/

theorem charsLead_iff (n h : List Char) : charsLead n h = true ↔ ∃ t, h = n ++ t := by
  induction n generalizing h with
  | nil => simp [charsLead]
  | cons a as ih =>
    cases h with
    | nil => simp [charsLead]
    | cons b bs =>
      simp only [charsLead, Bool.and_eq_true, beq_iff_eq, ih]
      constructor
      · rintro ⟨rfl, t, rfl⟩; exact ⟨t, rfl⟩
      · rintro ⟨t, ht⟩
        cases ht
        exact ⟨rfl, t, rfl⟩

theorem charsHave_iff (h n : List Char) : charsHave h n = true ↔ ∃ p t, h = p ++ n ++ t := by
  induction h with
  | nil =>
    simp only [charsHave, charsLead_iff]
    constructor
    · rintro ⟨t, ht⟩
      exact ⟨[], t, by simpa using ht⟩
    · rintro ⟨p, t, ht⟩
      rcases List.append_eq_nil.mp (List.append_eq_nil.mp ht.symm).1 with ⟨rfl, rfl⟩
      exact ⟨t, by simpa using ht⟩
  | cons c tl ih =>
    simp only [charsHave, Bool.or_eq_true, charsLead_iff, ih]
    constructor
    · rintro (⟨t, ht⟩ | ⟨p, t, ht⟩)
      · exact ⟨[], t, by simpa using ht⟩
      · exact ⟨c :: p, t, by simp [ht]⟩
    · rintro ⟨p, t, ht⟩
      cases p with
      | nil => exact Or.inl ⟨t, by simpa using ht⟩
      | cons q qs =>
        simp only [List.cons_append, List.cons.injEq] at ht
        exact Or.inr ⟨qs, t, ht.2⟩

/-- Containment is inherited by any contiguous part of the needle. -/
theorem charsHave_of_within (h big p mid t : List Char)
    (hb : charsHave h big = true) (hdecomp : big = p ++ mid ++ t) :
    charsHave h mid = true := by
  rcases (charsHave_iff h big).mp hb with ⟨pre, post, hpre⟩
  refine (charsHave_iff h mid).mpr ⟨pre ++ p, t ++ post, ?_⟩
  subst hdecomp
  simp [hpre]

theorem charsLead_map (f : Char → Char) (n h : List Char)
    (hl : charsLead n h = true) : charsLead (n.map f) (h.map f) = true := by
  induction n generalizing h with
  | nil => simp [charsLead]
  | cons a as ih =>
    cases h with
    | nil => simp [charsLead] at hl
    | cons b bs =>
      simp only [charsLead, Bool.and_eq_true, beq_iff_eq] at hl
      simp only [List.map_cons, charsLead, Bool.and_eq_true, beq_iff_eq, hl.1]
      exact ⟨trivial, ih bs hl.2⟩

theorem charsHave_map (f : Char → Char) (h n : List Char)
    (hh : charsHave h n = true) : charsHave (h.map f) (n.map f) = true := by
  induction h with
  | nil =>
    rcases (charsHave_iff [] n).mp hh with ⟨p, t, hpt⟩
    rcases List.append_eq_nil.mp (List.append_eq_nil.mp hpt.symm).1 with ⟨rfl, rfl⟩
    simp only [List.append_nil, List.nil_append] at hpt
    simp [← hpt, charsHave, charsLead]
  | cons c tl ih =>
    simp only [charsHave, Bool.or_eq_true] at hh
    rcases hh with hl | hrec
    · simp only [List.map_cons, charsHave, Bool.or_eq_true]
      exact Or.inl (charsLead_map f n (c :: tl) hl)
    · simp only [List.map_cons, charsHave, Bool.or_eq_true]
      exact Or.inr (ih hrec)

/-- Lowering a string preserves substring containment. -/
theorem strContains_lower_mono (u pat : String) (h : strContains u pat = true) :
    strContains (strLower u) (strLower pat) = true := by
  unfold strContains strLower at *
  simpa using charsHave_map Char.toLower u.toList pat.toList h

/-! ## Theorems: scorer -/

/-- C1: compute_score is claimed to add, for a row carrying the pipeline
columns, the weight of every satisfied criterion. On the row the pipeline
actually produces (all six criteria favourable, unit weights) the code
returns 2 while the claimed sum is 6: the code reads the keys
"Meals Provided", "Staff Stability", "Cultural Diversity" and
"MSFT Discount" with spaces, which no producer in the repository writes,
so only Mandarin and Curriculum can ever contribute. -/
theorem compute_score_key_mismatch :
    compute_score c1Row unitWeights = 2 ∧ compute_score_claim c1Row unitWeights = 6 := by
  constructor <;> rfl

/-! ## Theorems: extractor retry layer -/

/-- C6: when every attempt of the bounded retry loop fails, the summary
call returns exactly the fixed default record, and (being a total
function) raises nothing. -/
theorem call_gemini_summary_all_fail (outcomes : List AttemptOutcome)
    (h : ∀ o ∈ outcomes, o = AttemptOutcome.err) :
    call_gemini_summary outcomes = default_record := by
  induction outcomes with
  | nil => rfl
  | cons o rest ih =>
    have ho : o = AttemptOutcome.err := h o (List.mem_cons_self o rest)
    subst ho
    exact ih (fun o' ho' => h o' (List.mem_cons_of_mem _ ho'))

/-- C6 witness: three failing attempts (the default retry budget) yield
the default record. -/
theorem call_gemini_summary_all_fail_witness :
    (∀ o ∈ [AttemptOutcome.err, AttemptOutcome.err, AttemptOutcome.err],
        o = AttemptOutcome.err) ∧
    call_gemini_summary [AttemptOutcome.err, AttemptOutcome.err, AttemptOutcome.err]
      = default_record := by
  refine ⟨?_, ?_⟩
  · intro o ho
    simp only [List.mem_cons, List.not_mem_nil, or_false] at ho
    rcases ho with h | h | h <;> exact h
  · exact call_gemini_summary_all_fail _ (by
      intro o ho
      simp only [List.mem_cons, List.not_mem_nil, or_false] at ho
      rcases ho with h | h | h <;> exact h)

/-- C3 counterexample: a successful first attempt whose response decodes
to an object without the six keys is returned verbatim, so the record a
summarization call returns does not always contain all six keys. -/
theorem summary_success_missing_keys :
    call_gemini_summary [AttemptOutcome.ok [("note", JVal.str "hi")]]
        = [("note", JVal.str "hi")] ∧
    hasKeyB [("note", JVal.str "hi")] "Mandarin" = false ∧
    sixKeysB [("note", JVal.str "hi")] = false := by
  refine ⟨rfl, rfl, rfl⟩

/-- C3 amended: every record returned by a summarization call is either
the fixed default record (which does contain all six keys) or the decoded
object of the first successful attempt, returned verbatim; the six keys
are only guaranteed on the exhausted-retries path. All three call shapes
share the same loop. -/
theorem summary_default_or_decoded (outcomes : List AttemptOutcome) :
    ((gemini_attempt_loop outcomes = default_record ∧ sixKeysB default_record = true)
      ∨ ∃ o, AttemptOutcome.ok o ∈ outcomes ∧ gemini_attempt_loop outcomes = o)
    ∧ call_gemini_summary outcomes = gemini_attempt_loop outcomes
    ∧ call_gemini_summary_multipage outcomes = gemini_attempt_loop outcomes
    ∧ call_gemini_summary_multiurl outcomes = gemini_attempt_loop outcomes := by
  refine ⟨?_, rfl, rfl, rfl⟩
  induction outcomes with
  | nil => exact Or.inl ⟨rfl, rfl⟩
  | cons o rest ih =>
    cases o with
    | err =>
      rcases ih with ⟨h1, h2⟩ | ⟨ob, hmem, heq⟩
      · exact Or.inl ⟨h1, h2⟩
      · exact Or.inr ⟨ob, List.mem_cons_of_mem _ hmem, heq⟩
    | ok ob =>
      exact Or.inr ⟨ob, List.mem_cons_self _ _, rfl⟩

/-! ## Theorems: fetcher -/

/-- C7: the smart fetch agrees everywhere with the spec description:
static first, kept when non-empty and the rendering heuristic is false;
otherwise the rendered text with "selenium" when non-empty, else the
static text or empty string with "failed". -/
theorem get_text_from_url_smart_matches_spec (env : FetchEnv) (url : String) :
    get_text_from_url_smart env url = fetch_smart_spec env url := by
  unfold get_text_from_url_smart fetch_smart_spec
  simp only [Bool.not_eq_true]

/-! ## Theorems: link filter -/

theorem filter_loop_spec (urls priority_urls regular_urls : List String) :
    filter_loop urls priority_urls regular_urls =
      (priority_urls ++ urls.filter (fun u => keepB u && priB u),
       regular_urls ++ urls.filter (fun u => keepB u && !priB u)) := by
  induction urls generalizing priority_urls regular_urls with
  | nil => simp [filter_loop]
  | cons u rest ih =>
    by_cases hk : keepB u
    · by_cases hp : priB u
      · simp [filter_loop, hk, hp, ih, List.filter_cons]
      · simp [filter_loop, hk, hp, ih, List.filter_cons]
    · simp [filter_loop, hk, ih, List.filter_cons]

/-- C9: the link filter drops exactly the denylisted URLs and returns the
kept allowlist matches first, then the kept rest, both groups in
encounter order (List.filter preserves order); moreover any URL
containing "/contact-us" is denylisted (it contains "contact"), and any
URL containing "/our-program" matches the allowlist (it contains
"program"), so when kept it lands in the priority group. -/
theorem filter_non_content_pages_spec :
    (∀ urls : List String,
        filter_non_content_pages urls =
          urls.filter (fun u => keepB u && priB u)
            ++ urls.filter (fun u => keepB u && !priB u))
    ∧ (∀ u : String, strContains u "/contact-us" = true → keepB u = false)
    ∧ (∀ u : String, strContains u "/our-program" = true → priB u = true) := by
  refine ⟨?_, ?_, ?_⟩
  · intro urls
    simp [filter_non_content_pages, filter_loop_spec]
  · intro u hc
    have h1 : strContains (strLower u) "/contact-us" = true := by
      have hmono := strContains_lower_mono u "/contact-us" hc
      have heq : strLower "/contact-us" = "/contact-us" := by decide
      rwa [heq] at hmono
    have h2 : strContains (strLower u) "contact" = true := by
      unfold strContains at h1 ⊢
      exact charsHave_of_within (strLower u).toList ("/contact-us".toList)
        (['/']) ("contact".toList) (['-', 'u', 's']) h1 (by decide)
    have hany : exclude_patterns.any (fun p => strContains (strLower u) p) = true :=
      List.any_eq_true.mpr ⟨"contact", by decide, h2⟩
    simp [keepB, hany]
  · intro u hc
    have h1 : strContains (strLower u) "/our-program" = true := by
      have hmono := strContains_lower_mono u "/our-program" hc
      have heq : strLower "/our-program" = "/our-program" := by decide
      rwa [heq] at hmono
    have h2 : strContains (strLower u) "program" = true := by
      unfold strContains at h1 ⊢
      exact charsHave_of_within (strLower u).toList ("/our-program".toList)
        ("/our-".toList) ("program".toList) ([]) h1 (by decide)
    have hany : priority_patterns.any (fun p => strContains (strLower u) p) = true :=
      List.any_eq_true.mpr ⟨"program", by decide, h2⟩
    exact hany

/-! ## Theorems: cache behaviour of scrape_daycare_info -/

/-- C2 counterexample: with a populated cache entry for "prov", invoking
the pipeline with a two-URL list still performs two page fetches and a
model call — the multi-URL path never consults the cache, so the claim
fails for list arguments of two or more URLs. -/
theorem multi_url_list_bypasses_cache :
    lookupEntry c2State.cacheJson (sanitize "prov") = some c2Entry
    ∧ c2State.fetchCount = 0 ∧ c2State.modelCount = 0
    ∧ (scrape_daycare_info richEnv c2State (UrlArg.list ["u1", "u2"]) "prov").2.fetchCount = 2
    ∧ (scrape_daycare_info richEnv c2State (UrlArg.list ["u1", "u2"]) "prov").2.modelCount = 1 :=
  ⟨rfl, rfl, rfl, rfl, rfl⟩

/-- C2 amended: with a populated cache entry, an invocation with a single
URL string or with a one-element URL list performs no page fetch and no
model call (the state is returned untouched) and returns the stored
record with the four metadata keys stripped — so repeated invocations in
these two shapes return identical records; a list of two or more URLs
bypasses the cache. -/
theorem cache_hit_short_circuits (env : Env) (s : PipeState) (name url : String)
    (entry : Obj) (h : lookupEntry s.cacheJson (sanitize name) = some entry) :
    scrape_daycare_info env s (UrlArg.single url) name
        = (entry.filter (fun kv => !(strip_keys.contains kv.1)), s)
    ∧ scrape_daycare_info env s (UrlArg.list [url]) name
        = (entry.filter (fun kv => !(strip_keys.contains kv.1)), s) := by
  have base : scrape_single_url env s url name
      = (entry.filter (fun kv => !(strip_keys.contains kv.1)), s) := by
    unfold scrape_single_url
    simp only [h]
  exact ⟨base, base⟩

/-- C2 witness: the populated entry for "prov" short-circuits both
single-URL shapes. -/
theorem cache_hit_short_circuits_witness :
    lookupEntry c2State.cacheJson (sanitize "prov") = some c2Entry
    ∧ (scrape_daycare_info richEnv c2State (UrlArg.single "u1") "prov"
          = (c2Entry.filter (fun kv => !(strip_keys.contains kv.1)), c2State)
      ∧ scrape_daycare_info richEnv c2State (UrlArg.list ["u1"]) "prov"
          = (c2Entry.filter (fun kv => !(strip_keys.contains kv.1)), c2State)) :=
  ⟨rfl, cache_hit_short_circuits richEnv c2State "prov" "u1" c2Entry rfl⟩

/-- C4 counterexample: a one-element URL list is not limited to one page.
With seven discoverable candidate links the pipeline fetches eight pages
(homepage plus seven subpages), because the single-URL body runs the
comprehensive scraper with max_pages = 8. -/
theorem single_element_list_fetches_eight_pages :
    (scrape_daycare_info linkyEnv emptyState (UrlArg.list ["hb"]) "pn").2.fetchCount = 8
    ∧ ¬((scrape_daycare_info linkyEnv emptyState (UrlArg.list ["hb"]) "pn").2.fetchCount ≤ 1) := by
  refine ⟨rfl, ?_⟩
  have h8 : (scrape_daycare_info linkyEnv emptyState (UrlArg.list ["hb"]) "pn").2.fetchCount = 8 := rfl
  omega

/-- C4 amended: a one-element list is processed exactly like a single URL
string — the cache-checked comprehensive site-aggregation body, whose
page budget is max_pages = 8, not 1 — while a list of two or more URLs
always takes the explicit-list path with no link discovery. -/
theorem scrape_daycare_info_dispatch (env : Env) (s : PipeState) (name u : String)
    (us : List String) (h : 2 ≤ us.length) :
    scrape_daycare_info env s (UrlArg.single u) name = scrape_single_url env s u name
    ∧ scrape_daycare_info env s (UrlArg.list [u]) name = scrape_single_url env s u name
    ∧ scrape_daycare_info env s (UrlArg.list us) name = scrape_multiple_urls env s us name := by
  refine ⟨rfl, rfl, ?_⟩
  rcases us with _ | ⟨a, _ | ⟨b, t⟩⟩
  · simp only [List.length_nil] at h; omega
  · simp only [List.length_cons, List.length_nil] at h; omega
  · rfl

/-- C4 witness: the dispatch at concrete arguments. -/
theorem scrape_daycare_info_dispatch_witness :
    2 ≤ (["u1", "u2"] : List String).length
    ∧ (scrape_daycare_info richEnv emptyState (UrlArg.single "u1") "pd"
          = scrape_single_url richEnv emptyState "u1" "pd"
      ∧ scrape_daycare_info richEnv emptyState (UrlArg.list ["u1"]) "pd"
          = scrape_single_url richEnv emptyState "u1" "pd"
      ∧ scrape_daycare_info richEnv emptyState (UrlArg.list ["u1", "u2"]) "pd"
          = scrape_multiple_urls richEnv emptyState ["u1", "u2"] "pd") :=
  ⟨by decide, scrape_daycare_info_dispatch richEnv emptyState "pd" "u1" ["u1", "u2"] (by decide)⟩

/-- C5 counterexample: after a real multi-URL run stored its entry, a
cache hit returns a record that still carries the multi-URL metadata keys
total_urls_provided, successful_urls, failed_urls and scraping_methods —
the strip list only removes the four comprehensive-path keys. -/
theorem cache_hit_keeps_multiurl_metadata :
    hasKeyB ((scrape_daycare_info richEnv c5State1 (UrlArg.single "u1") "pv").1)
        "total_urls_provided" = true
    ∧ hasKeyB ((scrape_daycare_info richEnv c5State1 (UrlArg.single "u1") "pv").1)
        "successful_urls" = true
    ∧ hasKeyB ((scrape_daycare_info richEnv c5State1 (UrlArg.single "u1") "pv").1)
        "failed_urls" = true
    ∧ hasKeyB ((scrape_daycare_info richEnv c5State1 (UrlArg.single "u1") "pv").1)
        "scraping_methods" = true :=
  ⟨rfl, rfl, rfl, rfl⟩

/-- C5 amended: a cache hit removes exactly the four keys
scraping_method, pages_scraped, scraped_urls and total_text_length from
the stored entry; every other stored field — in particular the multi-URL
metadata keys — survives in the returned record. -/
theorem cache_hit_strips_exactly_four (env : Env) (s : PipeState) (name url : String)
    (entry : Obj) (h : lookupEntry s.cacheJson (sanitize name) = some entry) :
    (scrape_daycare_info env s (UrlArg.single url) name).1
      = entry.filter (fun kv => !(strip_keys.contains kv.1)) := by
  show (scrape_single_url env s url name).1 = _
  unfold scrape_single_url
  simp only [h]

/-- C5 witness: the explicit multi-URL-shaped entry for "pw" is returned
with exactly the four strip keys removed. -/
theorem cache_hit_strips_exactly_four_witness :
    lookupEntry c5wState.cacheJson (sanitize "pw") = some c5wEntry
    ∧ (scrape_daycare_info richEnv c5wState (UrlArg.single "u") "pw").1
        = c5wEntry.filter (fun kv => !(strip_keys.contains kv.1)) :=
  ⟨rfl, cache_hit_strips_exactly_four richEnv c5wState "pw" "u" c5wEntry rfl⟩

/-! ## Theorems: page budget of the comprehensive scraper -/

/-- The truncation step keeps at most n candidate links. -/
theorem length_if_take_le (l : List String) (n : Nat) :
    (if n < l.length then l.take n else l).length ≤ n := by
  split
  · simp only [List.length_take]
    omega
  · omega

/-- Invariant of the subpage loop: each candidate link is fetched exactly
once, at most one page and one scraped URL is added per link, and the
loop neither calls the model nor touches either cache. -/
theorem comp_loop_invariant (env : Env) (links : List String) :
    ∀ (content : List PageContent) (scraped : List String) (st : PipeState),
      (comp_loop env links content scraped st).1.length ≤ content.length + links.length
      ∧ (comp_loop env links content scraped st).2.1.length ≤ scraped.length + links.length
      ∧ (comp_loop env links content scraped st).2.2.fetchCount = st.fetchCount + links.length
      ∧ (comp_loop env links content scraped st).2.2.modelCount = st.modelCount
      ∧ (comp_loop env links content scraped st).2.2.cacheJson = st.cacheJson
      ∧ (comp_loop env links content scraped st).2.2.cacheText = st.cacheText := by
  induction links with
  | nil =>
    intro content scraped st
    simp [comp_loop]
  | cons l rest ih =>
    intro content scraped st
    obtain ⟨cj, ct, fc, mc⟩ := st
    simp only [comp_loop]
    split
    · obtain ⟨a1, a2, a3, a4, a5, a6⟩ := ih
        (content ++ [{ url := l, text := (env.fetch l).1, method := (env.fetch l).2,
                       textLength := (env.fetch l).1.length, pageType := "subpage" }])
        (scraped ++ [l]) ⟨cj, ct, fc + 1, mc⟩
      dsimp only at a1 a2 a3 a4 a5 a6
      simp only [List.length_append, List.length_cons, List.length_nil] at a1 a2 ⊢
      exact ⟨by omega, by omega, by omega, a4, a5, a6⟩
    · obtain ⟨a1, a2, a3, a4, a5, a6⟩ := ih content scraped ⟨cj, ct, fc + 1, mc⟩
      dsimp only at a1 a2 a3 a4 a5 a6
      simp only [List.length_cons] at *
      exact ⟨by omega, by omega, by omega, a4, a5, a6⟩

/-- C8: for max_pages at least 1, the comprehensive scraper fetches at
most max_pages pages in total (one homepage fetch plus at most
max_pages - 1 subpage fetches), and both the scraped URL list and the
collected page set hold at most max_pages entries, however many candidate
links discovery and filtering produce. -/
theorem scrape_comprehensive_page_budget (env : Env) (st : PipeState)
    (base_url : String) (max_pages : Nat) (h : 1 ≤ max_pages) :
    ((scrape_comprehensive_daycare_info env st base_url max_pages).1.2.1).length ≤ max_pages
    ∧ ((scrape_comprehensive_daycare_info env st base_url max_pages).1.2.2).length ≤ max_pages
    ∧ (scrape_comprehensive_daycare_info env st base_url max_pages).2.fetchCount
        ≤ st.fetchCount + max_pages := by
  obtain ⟨cj, ct, fc, mc⟩ := st
  simp only [scrape_comprehensive_daycare_info]
  have hlen := length_if_take_le (filter_non_content_pages (env.links base_url)) (max_pages - 1)
  obtain ⟨a1, a2, a3, a4, a5, a6⟩ := comp_loop_invariant env
    (if max_pages - 1 < (filter_non_content_pages (env.links base_url)).length
     then (filter_non_content_pages (env.links base_url)).take (max_pages - 1)
     else filter_non_content_pages (env.links base_url))
    [{ url := base_url, text := (env.fetch base_url).1, method := (env.fetch base_url).2,
       textLength := (env.fetch base_url).1.length, pageType := "homepage" }]
    [base_url]
    ⟨cj, ct, fc + 1, mc⟩
  dsimp only at a1 a2 a3
  simp only [List.length_cons, List.length_nil] at a1 a2 ⊢
  exact ⟨by omega, by omega, by omega⟩

/-- C8 witness: seven candidate links under a three-page budget yield at
most three pages. -/
theorem scrape_comprehensive_page_budget_witness :
    1 ≤ 3
    ∧ (((scrape_comprehensive_daycare_info linkyEnv emptyState "hb" 3).1.2.1).length ≤ 3
      ∧ ((scrape_comprehensive_daycare_info linkyEnv emptyState "hb" 3).1.2.2).length ≤ 3
      ∧ (scrape_comprehensive_daycare_info linkyEnv emptyState "hb" 3).2.fetchCount
          ≤ emptyState.fetchCount + 3) :=
  ⟨by decide, scrape_comprehensive_page_budget linkyEnv emptyState "hb" 3 (by decide)⟩

/-! ## Theorems: the multi-URL failure path -/

/-- When no URL passes the meaningful-content test, the URL loop keeps
its accumulators untouched and only counts the fetches. -/
theorem multi_loop_all_fail (env : Env) (urls : List String) :
    ∀ (cc : String) (scraped methods : List String) (st : PipeState),
      (∀ u ∈ urls, ¬((env.fetch u).1 ≠ "" ∧ 200 < (strStrip (env.fetch u).1).length)) →
      multi_loop env urls cc scraped methods st
        = (cc, scraped, methods, { st with fetchCount := st.fetchCount + urls.length }) := by
  induction urls with
  | nil =>
    intro cc scraped methods st _
    simp [multi_loop]
  | cons u rest ih =>
    intro cc scraped methods st h
    have hu := h u (List.mem_cons_self u rest)
    obtain ⟨cj, ct, fc, mc⟩ := st
    simp only [multi_loop]
    rw [if_neg hu]
    rw [ih cc scraped methods ⟨cj, ct, fc + 1, mc⟩
      (fun u' hu' => h u' (List.mem_cons_of_mem _ hu'))]
    dsimp only
    simp only [List.length_cons]
    have harith : fc + 1 + rest.length = fc + (rest.length + 1) := by omega
    rw [harith]

/-- C10: when every supplied URL fails the fetch or falls below the
200-character meaningful-content threshold, scrape_multiple_urls returns
the empty record, makes no model call, and writes neither a structured
cache entry nor a raw-text cache file: the final state differs from the
initial one only by the per-URL fetch count. -/
theorem scrape_multiple_urls_no_content (env : Env) (st : PipeState)
    (url_list : List String) (name : String)
    (h : ∀ u ∈ url_list, ¬((env.fetch u).1 ≠ "" ∧ 200 < (strStrip (env.fetch u).1).length)) :
    scrape_multiple_urls env st url_list name
      = ([], { st with fetchCount := st.fetchCount + url_list.length }) := by
  unfold scrape_multiple_urls
  rw [multi_loop_all_fail env url_list "" [] [] st h]
  rfl

/-- C10 witness: two URLs of short text leave the caches and the model
counter untouched and return the empty record. -/
theorem scrape_multiple_urls_no_content_witness :
    (∀ u ∈ ["a", "b"],
        ¬((shortEnv.fetch u).1 ≠ "" ∧ 200 < (strStrip (shortEnv.fetch u).1).length))
    ∧ scrape_multiple_urls shortEnv emptyState ["a", "b"] "pten"
        = ([], { emptyState with fetchCount := emptyState.fetchCount + 2 }) :=
  ⟨by decide, scrape_multiple_urls_no_content shortEnv emptyState ["a", "b"] "pten" (by decide)⟩

/-- C9 witness: concrete same-site URLs exercising all three parts. -/
theorem filter_non_content_pages_spec_witness :
    (strContains "https://kids.example/contact-us" "/contact-us" = true
      ∧ keepB "https://kids.example/contact-us" = false)
    ∧ (strContains "https://kids.example/our-program" "/our-program" = true
      ∧ priB "https://kids.example/our-program" = true)
    ∧ filter_non_content_pages ["https://kids.example/our-program"]
        = ["https://kids.example/our-program"].filter (fun u => keepB u && priB u)
          ++ ["https://kids.example/our-program"].filter (fun u => keepB u && !priB u) := by
  refine ⟨⟨by decide, filter_non_content_pages_spec.2.1 _ (by decide)⟩,
          ⟨by decide, filter_non_content_pages_spec.2.2 _ (by decide)⟩,
          filter_non_content_pages_spec.1 _⟩

end DaycareAutofill
